import Mathlib

/-!
Verification of the query-orchestration core of the Xpider_Huelva assistant.

This file gives a shallow embedding, in Lean 4, of the pure decision logic of
the repository: the Cypher safety gate and auto-repair driver
(services/cypher.py), the token budgeter (chat_utils/text_utils.py), the
retrieval widening parameters (services/neo4j_queries.py), the follow-up
suggestion gate (services/followups.py and services/orchestrator.py), the
document-draft planner node (services/graph_nodes.py) and the heuristic part
of the intent router (services/intent_router.py).

Python regular expressions are embedded as hand-written scanners over lists of
characters.  The word-character class of the regexes is modelled for the ASCII
range (the queries and keywords involved are ASCII); Python whitespace is
modelled by Char.isWhitespace.  External effects (the LLM, the Neo4j driver)
are modelled as oracle parameters: an environment supplies the text each LLM
generation call would return and whether each query execution would raise.
-/

namespace XpiderHuelva

/-- ASCII model of the regex word-character class used by the Python re
checks, that is letters, digits and the underscore. -/
def isWordChar (c : Char) : Bool := c.isAlphanum || c == '_'

/-- Lower-casing of a single character, used for re.IGNORECASE comparisons
(ASCII model of Python case folding). -/
def lowerA (c : Char) : Char := c.toLower

/-- Consume the literal pattern at the head of the input, comparing
case-insensitively; return the rest of the input on success. -/
def eatCI : List Char → List Char → Option (List Char)
  | [], cs => some cs
  | _ :: _, [] => none
  | p :: ps, c :: cs => if lowerA c == lowerA p then eatCI ps cs else none

/-- Consume one or more whitespace characters, greedily, as the regex piece
matching a whitespace run would. -/
def eatWs1 : List Char → Option (List Char)
  | c :: cs => if c.isWhitespace then some (cs.dropWhile Char.isWhitespace) else none
  | [] => none

/-- Scan the input for a position preceded by a word boundary at which the
matcher succeeds.  The argument prev carries the character just before the
current position; the initial sentinel is a space, so that the start of the
string is a word boundary, as in Python re.search. -/
def scanBW (m : List Char → Bool) : Char → List Char → Bool
  | _, [] => false
  | prev, c :: cs => (!isWordChar prev && m (c :: cs)) || scanBW m c cs

/-- Leftmost-match variant of scanBW that returns the value extracted by the
matcher, modelling re.search with a capture group. -/
def scanBWF {α : Type} (m : List Char → Option α) : Char → List Char → Option α
  | _, [] => none
  | prev, c :: cs => (if !isWordChar prev then m (c :: cs) else none) <|> scanBWF m c cs

/-- Scan the input for any position at which the matcher succeeds, with no
boundary requirement, modelling re.search for a pattern that does not begin
with a word boundary. -/
def scanAny (m : List Char → Bool) : List Char → Bool
  | [] => false
  | c :: cs => m (c :: cs) || scanAny m cs

/-- Match one keyword consisting of word characters, followed by a word
boundary: the next character must not be a word character (or the input
ends). -/
def kwWordAt (w : List Char) (cs : List Char) : Bool :=
  match eatCI w cs with
  | some rest =>
    match rest with
    | [] => true
    | c :: _ => !isWordChar c
  | none => false

/-- Match two keywords separated by a whitespace run, the second followed by a
word boundary. -/
def kwTwoWordsAt (w1 w2 : List Char) (cs : List Char) : Bool :=
  match eatCI w1 cs with
  | some r1 =>
    match eatWs1 r1 with
    | some r2 => kwWordAt w2 r2
    | none => false
  | none => false

/-- Match the pattern CALL, whitespace, then the literal apoc followed by a
dot.  The trailing word boundary of the source regex sits after the dot, a
non-word character, so it requires the next character to be a word
character. -/
def kwCallApocAt (cs : List Char) : Bool :=
  match eatCI (("call").data) cs with
  | some r1 =>
    match eatWs1 r1 with
    | some r2 =>
      match eatCI (("apoc.").data) r2 with
      | some rest =>
        match rest with
        | [] => false
        | c :: _ => isWordChar c
      | none => false
    | none => false
  | none => false

/-- Embedding of WRITE_KEYWORDS from services/cypher.py: the case-insensitive
search for CREATE, MERGE, SET, DELETE, DETACH, DROP, LOAD CSV, CALL apoc. or
CALL dbms, each between word boundaries. -/
def containsWriteKeyword (s : String) : Bool :=
  scanBW
    (fun cs =>
      kwWordAt (("create").data) cs || kwWordAt (("merge").data) cs ||
      kwWordAt (("set").data) cs || kwWordAt (("delete").data) cs ||
      kwWordAt (("detach").data) cs || kwWordAt (("drop").data) cs ||
      kwTwoWordsAt (("load").data) (("csv").data) cs || kwCallApocAt cs ||
      kwTwoWordsAt (("call").data) (("dbms").data) cs)
    ' ' s.data

/-- Embedding of the read-clause search in cypher_is_safe_readonly: the query
must contain MATCH, CALL, WITH or RETURN between word boundaries,
case-insensitively. -/
def containsReadClause (s : String) : Bool :=
  scanBW
    (fun cs =>
      kwWordAt (("match").data) cs || kwWordAt (("call").data) cs ||
      kwWordAt (("with").data) cs || kwWordAt (("return").data) cs)
    ' ' s.data

/-- Embedding of cypher_is_safe_readonly from services/cypher.py: an empty
query is rejected, a query containing a write keyword is rejected, and the
query must contain at least one basic read clause. -/
def cypher_is_safe_readonly (cypher : String) : Bool :=
  if cypher.isEmpty then false
  else if containsWriteKeyword cypher then false
  else if containsReadClause cypher then true
  else false

/-- Search for the keyword LIMIT between word boundaries, case-insensitively,
as in cypher_ensure_limit. -/
def hasLimitKeyword (s : String) : Bool :=
  scanBW (kwWordAt (("limit").data)) ' ' s.data

/-- Model of the Python str.rstrip method with no argument: remove trailing
whitespace. -/
def pyRstrip (s : String) : String :=
  String.mk ((s.data.reverse.dropWhile Char.isWhitespace).reverse)

/-- Model of the Python str.strip method with no argument: remove leading and
trailing whitespace. -/
def pyStrip (s : String) : String :=
  String.mk (((s.data.dropWhile Char.isWhitespace).reverse.dropWhile
    Char.isWhitespace).reverse)

/-- Embedding of cypher_ensure_limit from services/cypher.py: if the query
already contains the LIMIT keyword it is returned unchanged, otherwise the
query is right-stripped and a LIMIT clause with the default row cap is
appended on a new line. -/
def cypher_ensure_limit (cypher : String) (default_limit : Nat) : String :=
  if hasLimitKeyword cypher then cypher
  else pyRstrip cypher ++ ("\nLIMIT ") ++ toString default_limit

/-- Match, at the current position, a lowercase r followed by a dot and at
least one word character, as in the case-sensitive regex of
cypher_needs_r_binding.  The left word boundary is checked by the scanner. -/
def rDotPropAt (cs : List Char) : Bool :=
  match cs with
  | 'r' :: '.' :: c :: _ => isWordChar c
  | _ => false

/-- Search for a use of a property of the relationship variable r. -/
def hasRDotProp (s : String) : Bool :=
  scanBW rDotPropAt ' ' s.data

/-- Match, at the current position, an opening bracket, optional whitespace, a
lowercase r, optional whitespace and a colon, which is how a declared
relationship binding looks. -/
def bracketRBindAt (cs : List Char) : Bool :=
  match cs with
  | '[' :: rest =>
    match rest.dropWhile Char.isWhitespace with
    | 'r' :: r2 =>
      match r2.dropWhile Char.isWhitespace with
      | ':' :: _ => true
      | _ => false
    | _ => false
  | _ => false

/-- Search for a declared relationship binding anywhere in the query. -/
def hasBracketRBind (s : String) : Bool :=
  scanAny bracketRBindAt s.data

/-- Embedding of cypher_needs_r_binding from services/cypher.py: the query
uses a property of r but never declares a binding for r. -/
def cypher_needs_r_binding (cypher : String) : Bool :=
  if hasRDotProp cypher then !hasBracketRBind cypher else false

/-- Oracle environment for cypher_qa.  The three generation fields give the
query text the LLM would return on, respectively, the initial generation
call, the regeneration issued after the binding-consistency check, and the
regeneration issued after an execution failure.  The execFails field tells
whether executing a given query text against the graph store raises. -/
structure CypherGenEnv where
  gen0 : String
  genBindingRepair : String
  genExecRepair : String
  execFails : String → Bool

/-- Outcome tag of one cypher_qa run. -/
inductive QAStatus where
  | ok : QAStatus
  | unsafeInitial : QAStatus
  | unsafeRepair : QAStatus
  | failedRetry : QAStatus
deriving DecidableEq, Repr

/-- Observable result of one cypher_qa run: the query texts actually handed
to the graph store, in order, the number of LLM generation calls made, and
the outcome tag. -/
structure QAResult where
  executed : List String
  genCalls : Nat
  status : QAStatus
deriving DecidableEq, Repr

/-- Embedding of the control flow of cypher_qa from services/cypher.py.
The initial plan is checked by the safety gate; a plan that trips the
binding-consistency check is replaced by a regenerated plan with no further
check, exactly as in the source; the row cap is injected; on execution
failure one repaired plan is generated, gated, capped and executed.  Result
formatting and the parameter maps, which do not influence which queries are
executed, are not modelled. -/
def cypher_qa (env : CypherGenEnv) : QAResult :=
  let cypher0 := env.gen0
  if !cypher_is_safe_readonly cypher0 then
    { executed := [], genCalls := 1, status := QAStatus.unsafeInitial }
  else
    let step1 : String × Nat :=
      if cypher_needs_r_binding cypher0 then (env.genBindingRepair, 2) else (cypher0, 1)
    let cypher1 := cypher_ensure_limit step1.1 50
    if !env.execFails cypher1 then
      { executed := [cypher1], genCalls := step1.2, status := QAStatus.ok }
    else
      let repair := env.genExecRepair
      if !cypher_is_safe_readonly repair then
        { executed := [cypher1], genCalls := step1.2 + 1, status := QAStatus.unsafeRepair }
      else
        let repair1 := cypher_ensure_limit repair 50
        if !env.execFails repair1 then
          { executed := [cypher1, repair1], genCalls := step1.2 + 1, status := QAStatus.ok }
        else
          { executed := [cypher1, repair1], genCalls := step1.2 + 1, status := QAStatus.failedRetry }

/-- Embedding of estimate_tokens from chat_utils/text_utils.py: an empty text
costs 0, any other text costs its character count divided by four, with a
floor of one token. -/
def estimate_tokens (text : String) : Nat :=
  if text.length = 0 then 0 else max 1 (text.length / 4)

/-- Loop of trim_history_to_fit over the history in newest-first order: keep
a turn only while adding its estimated cost stays within the budget, and stop
at the first turn that would overflow. -/
def trimLoop (budget : Int) : Int → List String → List String
  | _, [] => []
  | used, m :: rest =>
    let mt : Int := (estimate_tokens m : Int)
    if budget < used + mt then []
    else m :: trimLoop budget (used + mt) rest

/-- Embedding of trim_history_to_fit from chat_utils/text_utils.py.  History
turns are modelled by their content strings, which is all the source reads
of them.  The function walks the history newest first and returns the kept
turns restored to chronological order. -/
def trim_history_to_fit (history : List String) (system_msg user_msg : String)
    (max_context_tokens reserve_for_answer : Nat) : List String :=
  let budget : Int := (max_context_tokens : Int) - (reserve_for_answer : Int)
  let used : Int := (estimate_tokens system_msg : Int) + (estimate_tokens user_msg : Int)
  (trimLoop budget used history.reverse).reverse

/-- Total estimated token cost of a list of history turns. -/
def histCost (l : List String) : Int :=
  (l.map (fun m => (estimate_tokens m : Int))).sum

/-- Default of MODEL_MAX_CONTEXT_TOKENS in config.py. -/
def MODEL_MAX_CONTEXT_TOKENS : Nat := 30000

/-- Default of RESERVE_FOR_ANSWER_TOKENS in config.py. -/
def RESERVE_FOR_ANSWER_TOKENS : Nat := 6000

/-- Default of K_CAPITULOS in config.py, the normal chapter retrieval cap. -/
def K_CAPITULOS : Nat := 25

/-- Default of K_EXTRACTOS in config.py, the normal extract retrieval cap. -/
def K_EXTRACTOS : Nat := 50

/-- Embedding of the candidate-count computation of search_capitulos in
services/neo4j_queries.py: with no expediente filter, or an empty one, the
vector index is asked for k candidates; with a non-empty filter it is asked
for 25 times k candidates, with a floor of 200. -/
def search_capitulos_k_query (k : Nat) (expedientes : Option (List String)) : Nat :=
  match expedientes with
  | none => k
  | some [] => k
  | some (_ :: _) => max (k * 25) 200

/-- Embedding of the identical candidate-count computation of search_extractos
in services/neo4j_queries.py. -/
def search_extractos_k_query (k : Nat) (expedientes : Option (List String)) : Nat :=
  match expedientes with
  | none => k
  | some [] => k
  | some (_ :: _) => max (k * 25) 200

/-- Model of the declarative retrieval text of search_capitulos: the vector
index yields its ranked candidate list, of which the top k_query are
requested, the WHERE clause keeps the candidates whose expediente is in the
filter, and the final LIMIT truncates back to k.  Candidates are modelled by
their expediente, the only field the filter reads. -/
def search_capitulos_model (index : List String) (k : Nat)
    (expedientes : Option (List String)) : List String :=
  let kq := search_capitulos_k_query k expedientes
  (((index.take kq).filter (fun e =>
      match expedientes with
      | none => true
      | some es => decide (e ∈ es)))).take k

/-- Embedding of should_generate_followups from services/followups.py:
suggestions are worth generating only for a non-empty answer of at least 200
characters grounded in at least one evidence item. -/
def should_generate_followups {α β γ : Type} (answer : String)
    (contratos : List α) (capitulos : List β) (extractos : List γ) : Bool :=
  if answer.isEmpty then false
  else
    decide (0 < contratos.length + capitulos.length + extractos.length) &&
    decide (200 ≤ answer.length)

/-- Embedding of the follow-up suggestion decision of the orchestration flow,
services/orchestrator.py lines 271 to 277: the generation call is issued
exactly when the turn intent is RAG_QA or CYPHER_QA, the answer is non-empty,
and either should_generate_followups holds of the answer and the evidence
lists of the final state, or the intent is CYPHER_QA. -/
def orchestrator_followup_gate {α β γ : Type} (intent_type : Option String)
    (answer : String) (contratos : List α) (capitulos : List β)
    (extractos : List γ) : Bool :=
  ((decide (intent_type = some ("RAG_QA")) || decide (intent_type = some ("CYPHER_QA"))) &&
    !answer.isEmpty) &&
  (should_generate_followups answer contratos capitulos extractos ||
    decide (intent_type = some ("CYPHER_QA")))

/-- Model plan returned by plan_ppt_clarifications in
services/ppt_generation.py: the sanitized LLM verdict, the normalized request
text (defaulted to the user request by the source, hence always present) and
at most seven questions. -/
structure PptPlan where
  need_clarification : Bool
  normalized_request : String
  questions : List String
deriving DecidableEq, Repr

/-- The slice of router_state read and written by ppt_plan_node in
services/graph_nodes.py: the pending-draft flag, the accumulated request
text, and the clarification-round counter. -/
structure PptState where
  ppt_pending : Bool
  ppt_request_base : String
  ppt_rounds : Nat
deriving DecidableEq, Repr

/-- Outcome of one ppt_plan_node invocation: either the node asks the user
for clarifications, recording the new pending state and the questions it
emits, or it declares the plan ready and clears the pending state. -/
inductive PptNodeResult where
  | clarify (newState : PptState) (questions : List String) : PptNodeResult
  | ready (newState : PptState) : PptNodeResult
deriving DecidableEq, Repr

/-- Whether a planner outcome proceeds to generation. -/
def PptNodeResult.isReady : PptNodeResult → Bool
  | PptNodeResult.ready _ => true
  | PptNodeResult.clarify _ _ => false

/-- Default questions inserted by ppt_plan_node when the model plan carries
none. -/
def ppt_default_questions : List String :=
  [("¿Podrías especificar para qué se va a usar exactamente?"),
   ("¿Qué características técnicas mínimas debe cumplir?"),
   ("¿Cuál es el presupuesto máximo estimado?")]

/-- Embedding of ppt_plan_node from services/graph_nodes.py.  The plan
produced by the model for the accumulated request is an oracle argument.
Once two clarification rounds have happened the need_clarification verdict is
forced off; clarification is forced on whenever no draft is pending; in the
clarify branch the normalized request is stored, the round counter is
incremented and default questions are substituted when the plan has none; in
the ready branch the pending state is cleared. -/
def ppt_plan_node (st : PptState) (plan : PptPlan) : PptNodeResult :=
  let plan1 :=
    if 2 ≤ st.ppt_rounds ∧ plan.need_clarification = true then
      { plan with need_clarification := false }
    else plan
  let force_clarification := !st.ppt_pending
  if force_clarification = true ∨ plan1.need_clarification = true then
    let plan2 :=
      if plan1.questions.isEmpty then { plan1 with questions := ppt_default_questions }
      else plan1
    PptNodeResult.clarify
      { ppt_pending := true, ppt_request_base := plan2.normalized_request,
        ppt_rounds := st.ppt_rounds + 1 }
      plan2.questions
  else
    PptNodeResult.ready { ppt_pending := false, ppt_request_base := (""), ppt_rounds := 0 }

/-- The planner state of a conversation with no pending draft. -/
def freshPpt : PptState :=
  { ppt_pending := false, ppt_request_base := (""), ppt_rounds := 0 }

/-- Run ppt_plan_node over a list of successive model plans, threading the
state, and return the one-based index of the first invocation that proceeds
to generation, if any. -/
def firstReady : PptState → List PptPlan → Option Nat
  | _, [] => none
  | st, p :: ps =>
    match ppt_plan_node st p with
    | PptNodeResult.ready _ => some 1
    | PptNodeResult.clarify st1 _ => (firstReady st1 ps).map (· + 1)

/-- ASCII model of Python str.lower applied to a whole string. -/
def lowerS (s : String) : String := String.mk (s.data.map Char.toLower)

/-- ASCII model of Python str.upper applied to a whole string. -/
def upperA (s : String) : String := String.mk (s.data.map Char.toUpper)

/-- Read an optional string the way Python reads a dictionary entry with the
expression value-or-empty-string. -/
def orEmpty : Option String → String
  | some s => s
  | none => ("")

/-- Match the tail of the greeting regex after the greeting phrase: optional
whitespace, optional closing punctuation, optional whitespace, then the end
of the string. -/
def greetTailOk (cs : List Char) : Bool :=
  let r1 := cs.dropWhile Char.isWhitespace
  let r2 := r1.dropWhile (fun c => c == '!' || c == '.' || c == '?' || c == ',')
  (r2.dropWhile Char.isWhitespace).isEmpty

/-- Consume a sequence of literal words separated by whitespace runs,
case-insensitively. -/
def eatWordsCI : List (List Char) → List Char → Option (List Char)
  | [], cs => some cs
  | [w], cs => eatCI w cs
  | w :: w2 :: ws, cs =>
    match eatCI w cs with
    | some r1 =>
      match eatWs1 r1 with
      | some r2 => eatWordsCI (w2 :: ws) r2
      | none => none
    | none => none

/-- The greeting alternatives of the router regex, with the accented and
unaccented day spelling expanded into two alternatives. -/
def greetAlts : List (List (List Char)) :=
  [[("hola").data], [("gracias").data], [("adios").data], [("buenas").data],
   [("buenos").data, ("días").data], [("buenos").data, ("dias").data],
   [("buenas").data, ("tardes").data], [("buenas").data, ("noches").data],
   [("hey").data], [("hello").data], [("hi").data],
   [("qué").data, ("tal").data], [("que").data, ("tal").data]]

/-- Embedding of the anchored greeting match of services/intent_router.py:
optional leading whitespace, one greeting phrase, optional punctuation and
whitespace, end of string. -/
def greet_match (q : String) : Bool :=
  let cs := q.data.dropWhile Char.isWhitespace
  greetAlts.any (fun alt =>
    match eatWordsCI alt cs with
    | some rest => greetTailOk rest
    | none => false)

/-- Match the final capture group of the company regexes: one or more
characters other than a newline, running to the end of the string, where the
dollar anchor also accepts a position just before one trailing newline. -/
def groupDollar (cs : List Char) : Option (List Char) :=
  let body := if cs.getLast? = some '\n' then cs.dropLast else cs
  if body.isEmpty then none
  else if body.contains '\n' then none
  else some body

/-- Backtracking part of the whitespace-then-group match: consume further
whitespace greedily, and on failure let the group begin at the current
character. -/
def wsGroupDollarGo : List Char → Option (List Char)
  | [] => none
  | c :: rest =>
    if c.isWhitespace then (wsGroupDollarGo rest) <|> groupDollar (c :: rest)
    else groupDollar (c :: rest)

/-- Match a whitespace run followed by the final capture group, as the piece
of the company regexes after their last literal word. -/
def wsGroupDollar (cs : List Char) : Option (List Char) :=
  match cs with
  | c :: rest => if c.isWhitespace then wsGroupDollarGo rest else none
  | [] => none

/-- Consume one optional letter s, in either case, for the optional plural of
the aggregation regexes. -/
def dropOptS : List Char → List Char
  | 's' :: rest => rest
  | 'S' :: rest => rest
  | cs => cs

/-- Consume one letter a, accented or not, in either case, for the accented
character class of the aggregation regexes. -/
def eatAAccent : List Char → Option (List Char)
  | c :: rest => if c = 'a' ∨ c = 'A' ∨ c = 'á' ∨ c = 'Á' then some rest else none
  | [] => none

/-- Match, at the current position, the aggregation phrasing asking how many
contracts a company has won, returning its trailing capture group.  The left
word boundary is checked by the scanner. -/
def cuantosAt (cs : List Char) : Option (List Char) := do
  let r1 ← eatCI (("cu").data) cs
  let r2 ← eatAAccent r1
  let r3 ← eatCI (("nto").data) r2
  let r4 ← eatWs1 (dropOptS r3)
  let r5 ← eatCI (("contrato").data) r4
  let r6 ← eatWs1 (dropOptS r5)
  let r7 ← eatCI (("ha").data) r6
  let r8 ← eatWs1 r7
  let r9 ← eatCI (("ganado").data) r8
  wsGroupDollar r9

/-- Embedding of the search with the how-many-contracts regex of
services/intent_router.py, returning the extracted company text. -/
def cuantos_search (q : String) : Option String :=
  (scanBWF cuantosAt ' ' q.data).map String.mk

/-- Match one of the verb alternatives of the total-amount regex followed by
whitespace and the final capture group. -/
def verbTail (cs : List Char) : Option (List Char) :=
  (do
    let r1 ← eatCI (("ha").data) cs
    let r2 ← eatWs1 r1
    let r3 ← eatCI (("ganado").data) r2
    wsGroupDollar r3) <|>
  (do
    let r1 ← eatCI (("adjudicado").data) cs
    wsGroupDollar r1) <|>
  (do
    let r1 ← eatCI (("a").data) cs
    wsGroupDollar r1)

/-- Walk the gap matched by the greedy dot-star of the total-amount regex,
which cannot cross a newline, and return the match of the verb tail at the
rightmost position preceded by a word boundary, as greedy backtracking
would. -/
def gapVerbLast (prev : Char) : List Char → Option (List Char)
  | [] => none
  | c :: cs =>
    let deeper := if c = '\n' then none else gapVerbLast c cs
    match deeper with
    | some g => some g
    | none => if !isWordChar prev then verbTail (c :: cs) else none

/-- Check the word boundary after the first alternation of the total-amount
regex, whose last character is a word character, then look for the verb tail
across the gap. -/
def afterAlt1 (lastc : Char) (rest : List Char) : Option (List Char) :=
  match rest with
  | [] => none
  | c :: _ => if isWordChar c then none else gapVerbLast lastc rest

/-- Match, at the current position, the total-amount-awarded phrasing of
services/intent_router.py and return its final capture group. -/
def importeTotalMatchAt (cs : List Char) : Option (List Char) :=
  (do
    let r1 ← eatCI (("importe").data) cs
    let r2 ← eatWs1 r1
    let r3 ← eatCI (("total").data) r2
    afterAlt1 'l' r3) <|>
  (do
    let r1 ← eatCI (("total").data) cs
    let r2 ← eatWs1 r1
    let r3 ← eatCI (("adjudicado").data) r2
    afterAlt1 'o' r3) <|>
  (do
    let r1 ← eatCI (("cu").data) cs
    let r2 ← eatAAccent r1
    let r3 ← eatCI (("nto").data) r2
    let r4 ← eatWs1 r3
    ((eatCI (("dinero").data) r4).bind (afterAlt1 'o')) <|>
      ((eatCI (("importe").data) r4).bind (afterAlt1 'e')))

/-- Embedding of the search with the total-amount regex of
services/intent_router.py, returning the extracted company text. -/
def importe_total_search (q : String) : Option String :=
  (scanBWF importeTotalMatchAt ' ' q.data).map String.mk

/-- Match the tail of the elliptical follow-up regex after the capture group:
optional whitespace, optional question or exclamation marks, optional
whitespace, end of string. -/
def ySimpleTailOk (cs : List Char) : Bool :=
  let r1 := cs.dropWhile Char.isWhitespace
  let r2 := r1.dropWhile (fun c => c == '?' || c == '¿' || c == '!')
  (r2.dropWhile Char.isWhitespace).isEmpty

/-- Lazy capture of the elliptical follow-up regex: take the shortest
non-empty, newline-free group such that the remaining input matches the
tail. -/
def ySimpleGroupGo (acc : List Char) : List Char → Option (List Char)
  | [] => none
  | c :: rest =>
    if c = '\n' then none
    else if ySimpleTailOk rest then some (acc ++ [c])
    else ySimpleGroupGo (acc ++ [c]) rest

/-- Embedding of the anchored elliptical follow-up match of
services/intent_router.py: optional whitespace, the conjunction y, a
whitespace run, then the lazily captured company text. -/
def ySimple_match (q : String) : Option String :=
  match q.data.dropWhile Char.isWhitespace with
  | c :: rest =>
    if c = 'y' ∨ c = 'Y' then
      match eatWs1 rest with
      | some r2 => (ySimpleGroupGo [] r2).map String.mk
      | none => none
    else none
  | [] => none

mutual

/-- Collapse every run of two or more whitespace characters into a single
space, as the second substitution of the company cleaner does; a lone
whitespace character is left unchanged, exactly as the two-or-more
substitution leaves it. -/
def collapseWs : List Char → List Char
  | [] => []
  | a :: rest =>
    if a.isWhitespace then
      match rest with
      | [] => [a]
      | b :: rest2 =>
        if b.isWhitespace then ' ' :: collapseWsAfterRun rest2
        else a :: collapseWs (b :: rest2)
    else a :: collapseWs rest

/-- Skip the remaining whitespace of a run already replaced by one space,
then resume collapsing. -/
def collapseWsAfterRun : List Char → List Char
  | [] => []
  | c :: rest =>
    if c.isWhitespace then collapseWsAfterRun rest
    else c :: collapseWs rest

end

/-- Strip characters satisfying the predicate from both ends of the list, as
the Python str.strip method with a character-set argument does. -/
def stripBoth (p : Char → Bool) (cs : List Char) : List Char :=
  ((cs.dropWhile p).reverse.dropWhile p).reverse

/-- The punctuation set stripped from both ends of a candidate company
name. -/
def cleanPunct (c : Char) : Bool :=
  c == ' ' || c == '?' || c == '¿' || c == '!' || c == '.' ||
  c == ',' || c == ';' || c == ':'

/-- The demonstrative and locative words rejected as company names. -/
def pronounBlacklist : List String :=
  [("eso"), ("esa"), ("ese"), ("ella"), ("ello"), ("esto"), ("esta"), ("este"),
   ("aquí"), ("ahí"), ("aqui"), ("ahi")]

/-- Embedding of the company-name cleaner of services/intent_router.py:
strip, replace newline-class runs by spaces, collapse whitespace runs, strip
punctuation, strip again, then reject empty results, demonstratives,
four-digit numbers, and phrases that begin with the preposition en. -/
def clean_empresa (s : String) : Option String :=
  let t1 := (pyStrip s).data
  let t2 := t1.map (fun c => if c = '\n' ∨ c = '\r' ∨ c = '\t' then ' ' else c)
  let t3 := collapseWs t2
  let t4 := stripBoth cleanPunct t3
  let t5 := stripBoth Char.isWhitespace t4
  let t : String := String.mk t5
  if t.isEmpty then none
  else if pronounBlacklist.contains (lowerS t) then none
  else if t.length = 4 ∧ t.data.all Char.isDigit then none
  else if List.isPrefixOf (("en ").data) (lowerS t).data then none
  else some t

/-- Match, at the current position, one capital letter followed by exactly
eight digits and a word boundary, the Spanish company tax-id shape.  The left
word boundary is checked by the scanner. -/
def cifAt (cs : List Char) : Option (List Char) :=
  match cs with
  | c :: rest =>
    if 'A' ≤ c ∧ c ≤ 'Z' then
      let ds := rest.take 8
      if ds.length = 8 ∧ ds.all Char.isDigit then
        match rest.drop 8 with
        | [] => some (c :: ds)
        | d :: _ => if isWordChar d then none else some (c :: ds)
      else none
    else none
  | [] => none

/-- Embedding of the tax-id extractor of services/intent_router.py: search
the upper-cased text for a tax-id shaped token. -/
def extract_cif (text : String) : Option String :=
  if text.isEmpty then none
  else (scanBWF cifAt ' ' (upperA text).data).map String.mk

/-- The slice of router memory read by the heuristic intent rules embedded
here: the remembered focus and the remembered company query. -/
structure LastState where
  last_focus : Option String
  last_empresa_query : Option String
deriving DecidableEq, Repr

/-- The classification record returned by detect_intent, with the fields the
source always populates. -/
structure IntentResult where
  intent : String
  doc_tipo : Option String
  extracto_tipos : Option (List String)
  needs_aggregation : Bool
  is_greeting : Bool
  is_followup : Bool
  focus : String
  empresa_query : Option String
  empresa_nif : Option String
deriving DecidableEq, Repr

/-- Which rule of the ordered cascade produced the result. -/
inductive IntentRule where
  | greeting : IntentRule
  | cuantosContratos : IntentRule
  | importeTotal : IntentRule
  | ySimple : IntentRule
  | restOfCascade : IntentRule
deriving DecidableEq, Repr

/-- Embedding of the head of the ordered rule cascade of detect_intent in
services/intent_router.py: the greeting rule, the two aggregation-by-company
rules, and the elliptical follow-up rule, in source order.  The later rules,
from the anaphoric follow-up down to the LLM fallback, run only when none of
these fires and do not influence them; they are abstracted by the
restResult argument, the classification the rest of the cascade would
produce.  The result is tagged with the rule that produced it. -/
def detect_intent (question : String) (lastState : LastState)
    (restResult : IntentResult) : IntentRule × IntentResult :=
  let q := pyStrip question
  let last_focus := upperA (orEmpty lastState.last_focus)
  if greet_match q then
    (IntentRule.greeting,
      { intent := ("RAG_QA"), doc_tipo := none, extracto_tipos := none,
        needs_aggregation := false, is_greeting := true, is_followup := false,
        focus := ("CONTRATO"), empresa_query := none, empresa_nif := none })
  else
    match cuantos_search q with
    | some grp =>
      let empresa := clean_empresa grp
      (IntentRule.cuantosContratos,
        { intent := ("CYPHER_QA"), doc_tipo := none, extracto_tipos := none,
          needs_aggregation := true, is_greeting := false, is_followup := false,
          focus := if empresa.isSome then ("EMPRESA") else ("CONTRATO"),
          empresa_query := empresa, empresa_nif := extract_cif q })
    | none =>
      match importe_total_search q with
      | some grp =>
        let empresa := clean_empresa grp
        (IntentRule.importeTotal,
          { intent := ("CYPHER_QA"), doc_tipo := none, extracto_tipos := none,
            needs_aggregation := true, is_greeting := false, is_followup := false,
            focus := if empresa.isSome then ("EMPRESA") else ("CONTRATO"),
            empresa_query := empresa, empresa_nif := extract_cif q })
      | none =>
        match ySimple_match q with
        | some grp =>
          if last_focus = ("EMPRESA") then
            match clean_empresa grp with
            | some empresa =>
              (IntentRule.ySimple,
                { intent := ("RAG_QA"), doc_tipo := none, extracto_tipos := none,
                  needs_aggregation := false, is_greeting := false, is_followup := true,
                  focus := ("EMPRESA"), empresa_query := some empresa,
                  empresa_nif := extract_cif q })
            | none => (IntentRule.restOfCascade, restResult)
          else (IntentRule.restOfCascade, restResult)
        | none => (IntentRule.restOfCascade, restResult)

/-- A boundary scan succeeds on a cons cell whenever it succeeds on the tail
with the head as the previous character. -/
lemma scanBW_cons_of_tail (m : List Char → Bool) (prev c : Char) (cs : List Char)
    (h : scanBW m c cs = true) : scanBW m prev (c :: cs) = true := by
  simp [scanBW, h]

/-- A boundary scan succeeds on any extension to the left of a suffix on
which it succeeds for every previous character. -/
lemma scanBW_append_right (m : List Char → Bool) (ys : List Char)
    (h : ∀ p, scanBW m p ys = true) :
    ∀ (xs : List Char) (prev : Char), scanBW m prev (xs ++ ys) = true := by
  intro xs
  induction xs with
  | nil => intro prev; simpa using h prev
  | cons x xs ih => intro prev; simp [scanBW, ih x]

/-- The appended row-cap clause always contains the LIMIT keyword between
word boundaries, whatever character precedes it. -/
lemma limit_suffix_scan :
    ∀ p, scanBW (kwWordAt (("limit").data)) p
      ((("\nLIMIT ").data) ++ (toString (50 : Nat)).data) = true := by
  intro p
  exact scanBW_cons_of_tail _ p '\n' _ (by decide)

/-- The row-cap injector always leaves the query with a LIMIT keyword. -/
lemma ensure_limit_has_kw (q : String) :
    hasLimitKeyword (cypher_ensure_limit q 50) = true := by
  unfold cypher_ensure_limit
  by_cases h : hasLimitKeyword q = true
  · rw [if_pos h]; exact h
  · rw [if_neg h]
    unfold hasLimitKeyword
    rw [String.data_append, String.data_append, List.append_assoc]
    exact scanBW_append_right _ _ limit_suffix_scan _ ' '

/-- A query that already carries the LIMIT keyword is returned unchanged by
the row-cap injector. -/
lemma ensure_limit_of_has (x : String) (h : hasLimitKeyword x = true) :
    cypher_ensure_limit x 50 = x := by
  unfold cypher_ensure_limit
  rw [if_pos h]

/-- Cost of an empty kept history. -/
lemma histCost_nil : histCost [] = 0 := rfl

/-- Cost of a cons of kept history turns. -/
lemma histCost_cons (m : String) (l : List String) :
    histCost (m :: l) = (estimate_tokens m : Int) + histCost l := by
  simp [histCost]

/-- Reversing the kept history does not change its cost. -/
lemma histCost_reverse (l : List String) : histCost l.reverse = histCost l := by
  simp [histCost, List.map_reverse, List.sum_reverse]

/-- The trimming loop never lets the running total exceed the budget it was
started under. -/
lemma trimLoop_le (B : Int) :
    ∀ (l : List String) (used : Int), used ≤ B →
      used + histCost (trimLoop B used l) ≤ B := by
  intro l
  induction l with
  | nil => intro used h; simpa [trimLoop, histCost]
  | cons m rest ih =>
    intro used h
    by_cases hc : B < used + (estimate_tokens m : Int)
    · simp only [trimLoop, if_pos hc]
      simpa [histCost]
    · push_neg at hc
      have h2 := ih (used + (estimate_tokens m : Int)) hc
      simp only [trimLoop, if_neg (not_lt.mpr hc)]
      rw [histCost_cons]
      linarith

/-- Claim C10: for every query string, the row-cap injector returns a string
containing a LIMIT clause, it is idempotent, and a query already containing
the LIMIT keyword is returned unchanged. -/
theorem c10_ensure_limit_contract (q : String) :
    hasLimitKeyword (cypher_ensure_limit q 50) = true ∧
    cypher_ensure_limit (cypher_ensure_limit q 50) 50 = cypher_ensure_limit q 50 ∧
    (hasLimitKeyword q = true → cypher_ensure_limit q 50 = q) :=
  ⟨ensure_limit_has_kw q, ensure_limit_of_has _ (ensure_limit_has_kw q),
    fun h => ensure_limit_of_has q h⟩

/-- Witness for C10 at a concrete query with no LIMIT clause and at one that
already carries a LIMIT keyword. -/
theorem c10_ensure_limit_contract_witness :
    hasLimitKeyword ("MATCH (n) RETURN n LIMIT 3") = true ∧
    cypher_ensure_limit ("MATCH (n) RETURN n LIMIT 3") 50 = ("MATCH (n) RETURN n LIMIT 3") :=
  ⟨by decide, (c10_ensure_limit_contract ("MATCH (n) RETURN n LIMIT 3")).2.2 (by decide)⟩

/-- A system prompt of one hundred twenty thousand characters, used to show
the budget invariant cannot hold when the fixed prompt parts alone exceed
the budget. -/
def bigSys : String := String.mk (List.replicate 120000 'a')

/-- The big system prompt has the expected length. -/
lemma bigSys_length : bigSys.length = 120000 := by
  rw [bigSys, String.length_mk, List.length_replicate]

/-- The big system prompt alone costs thirty thousand estimated tokens. -/
lemma bigSys_tokens : estimate_tokens bigSys = 30000 := by
  unfold estimate_tokens
  rw [bigSys_length]
  norm_num

/-- Counterexample to claim C2 as stated: with the configured budget of
30000 total and 6000 reserved tokens, a 120000-character system prompt, an
empty rendered context and an empty history, the estimated cost of system
prompt plus kept history plus context is 30000, which exceeds the budget of
24000, because trimming can only drop history turns and there are none. -/
theorem c2_budget_counterexample :
    ¬ ((estimate_tokens bigSys : Int) +
        histCost (trim_history_to_fit [] bigSys ("") MODEL_MAX_CONTEXT_TOKENS
          RESERVE_FOR_ANSWER_TOKENS) +
        (estimate_tokens ("") : Int) ≤
        (MODEL_MAX_CONTEXT_TOKENS : Int) - (RESERVE_FOR_ANSWER_TOKENS : Int)) := by
  have ht : trim_history_to_fit [] bigSys ("") MODEL_MAX_CONTEXT_TOKENS
      RESERVE_FOR_ANSWER_TOKENS = [] := rfl
  rw [ht, bigSys_tokens, histCost_nil]
  norm_num [estimate_tokens, MODEL_MAX_CONTEXT_TOKENS, RESERVE_FOR_ANSWER_TOKENS]

/-- Claim C2, amended: whenever the system prompt and the rendered context
together fit within the budget, the kept history returned by
trim_history_to_fit keeps the total estimated cost of system prompt, kept
turns and context within max_context_tokens minus reserve_for_answer, for
any history. -/
theorem c2_trim_history_budget (history : List String) (sys user : String)
    (maxTok res : Nat)
    (h : (estimate_tokens sys : Int) + (estimate_tokens user : Int) ≤
      (maxTok : Int) - (res : Int)) :
    (estimate_tokens sys : Int) +
      histCost (trim_history_to_fit history sys user maxTok res) +
      (estimate_tokens user : Int) ≤ (maxTok : Int) - (res : Int) := by
  unfold trim_history_to_fit
  rw [histCost_reverse]
  have key := trimLoop_le ((maxTok : Int) - (res : Int)) history.reverse
    ((estimate_tokens sys : Int) + (estimate_tokens user : Int)) h
  linarith

/-- Witness for C2 at the configured budget, a short prompt and context and a
three-turn history. -/
theorem c2_trim_history_budget_witness :
    (estimate_tokens ("instrucciones") : Int) + (estimate_tokens ("contexto") : Int) ≤
      ((MODEL_MAX_CONTEXT_TOKENS : Nat) : Int) - ((RESERVE_FOR_ANSWER_TOKENS : Nat) : Int) ∧
    (estimate_tokens ("instrucciones") : Int) +
      histCost (trim_history_to_fit [("hola"), ("respuesta"), ("gracias")]
        ("instrucciones") ("contexto") MODEL_MAX_CONTEXT_TOKENS RESERVE_FOR_ANSWER_TOKENS) +
      (estimate_tokens ("contexto") : Int) ≤
      ((MODEL_MAX_CONTEXT_TOKENS : Nat) : Int) - ((RESERVE_FOR_ANSWER_TOKENS : Nat) : Int) :=
  ⟨by decide, c2_trim_history_budget [("hola"), ("respuesta"), ("gracias")]
    ("instrucciones") ("contexto") MODEL_MAX_CONTEXT_TOKENS RESERVE_FOR_ANSWER_TOKENS
    (by decide)⟩

/-- Counterexample to claim C8 as stated: on the empty string the estimator
returns 0, not the claimed value of one, the maximum of 1 and a quarter of
the character count. -/
theorem c8_estimate_tokens_counterexample :
    estimate_tokens ("") = 0 ∧
    ¬ (estimate_tokens ("") = max 1 ((String.length ("")) / 4)) := by
  constructor
  · rfl
  · decide

/-- Claim C8, amended: for every non-empty text the estimated token cost
equals the maximum of 1 and a quarter of the character count, so it is never
zero; the empty text is estimated at zero. -/
theorem c8_estimate_tokens_amended (s : String) :
    (s.length ≠ 0 →
      estimate_tokens s = max 1 (s.length / 4) ∧ estimate_tokens s ≠ 0) ∧
    (s.length = 0 → estimate_tokens s = 0) := by
  constructor
  · intro h
    unfold estimate_tokens
    rw [if_neg h]
    exact ⟨rfl, by positivity⟩
  · intro h
    unfold estimate_tokens
    rw [if_pos h]

/-- Witness for C8 at a concrete non-empty text and at the empty text. -/
theorem c8_estimate_tokens_amended_witness :
    (("abcdefghij") : String).length ≠ 0 ∧
    estimate_tokens ("abcdefghij") = max 1 ((("abcdefghij") : String).length / 4) :=
  ⟨by decide, ((c8_estimate_tokens_amended ("abcdefghij")).1 (by decide)).1⟩

/-- Claim C1, code-bug evidence: cypher_qa re-checks safety neither after the
binding-consistency regeneration nor before injecting the row cap.  With a
generator whose initial plan passes the gate but trips the binding check, and
whose regenerated plan is a CREATE query, the query handed to the graph
store fails cypher_is_safe_readonly, contradicting the round-trip property
that an executed plan always passed the safety gate. -/
theorem c1_unsafe_binding_repair_executed :
    (cypher_qa { gen0 := ("MATCH (n) RETURN r.x"),
                 genBindingRepair := ("CREATE (n) RETURN n"),
                 genExecRepair := ("RETURN 1"),
                 execFails := fun _ => false }).executed =
      [("CREATE (n) RETURN n\nLIMIT 50")] ∧
    cypher_is_safe_readonly ("CREATE (n) RETURN n\nLIMIT 50") = false :=
  ⟨by decide, by decide⟩

/-- Generator environment for the scenario of claim C4: the plan text of the
scenario, with a read-only repair plan and an execution that succeeds. -/
def c4envScenario : CypherGenEnv :=
  { gen0 := ("MATCH (e:Company)-[r:AWARDED]->(c:Contract) RETURN r.amount"),
    genBindingRepair :=
      ("MATCH (e:EmpresaRAG)-[r:ADJUDICATARIA_RAG]->(c:ContratoRAG) RETURN r.importe_adjudicado"),
    genExecRepair := ("RETURN 1"),
    execFails := fun _ => false }

/-- Generator environment whose initial plan references the property of r
without declaring the relationship variable. -/
def c4envUnbound : CypherGenEnv :=
  { gen0 := ("MATCH (e:Company)-[]->(c:Contract) RETURN r.amount"),
    genBindingRepair :=
      ("MATCH (e:EmpresaRAG)-[r:ADJUDICATARIA_RAG]->(c:ContratoRAG) RETURN r.importe_adjudicado"),
    genExecRepair := ("RETURN 1"),
    execFails := fun _ => false }

/-- Counterexample to claim C4 as stated: the scenario plan text declares the
relationship variable in its AWARDED pattern, so cypher_needs_r_binding
reports no missing binding, and cypher_qa performs a single generation call,
hence zero repair calls, for it. -/
theorem c4_binding_check_counterexample :
    cypher_needs_r_binding
      ("MATCH (e:Company)-[r:AWARDED]->(c:Contract) RETURN r.amount") = false ∧
    (cypher_qa c4envScenario).genCalls = 1 :=
  ⟨by decide, by decide⟩

/-- Claim C4, amended: the scenario plan text passes the binding-consistency
check, since its relationship pattern declares r, and triggers no repair
call; a plan that references the property of r without declaring the
variable, such as the same pattern with the brackets left empty, is detected
by the check and triggers exactly one repair call, whose regenerated plan is
the one executed. -/
theorem c4_binding_check_amended :
    cypher_needs_r_binding
      ("MATCH (e:Company)-[r:AWARDED]->(c:Contract) RETURN r.amount") = false ∧
    (cypher_qa c4envScenario).genCalls = 1 ∧
    cypher_needs_r_binding
      ("MATCH (e:Company)-[]->(c:Contract) RETURN r.amount") = true ∧
    (cypher_qa c4envUnbound).genCalls = 2 ∧
    (cypher_qa c4envUnbound).executed =
      [("MATCH (e:EmpresaRAG)-[r:ADJUDICATARIA_RAG]->(c:ContratoRAG) RETURN r.importe_adjudicado\nLIMIT 50")] :=
  ⟨by decide, by decide, by decide, by decide, by decide⟩

/-- Counterexample to claim C6 as stated: at the configured chapter and
extract caps, the widened candidate counts under a non-empty company filter
are 25 times the cap, 625 and 1250, not approximately six times the cap. -/
theorem c6_widening_counterexample :
    search_capitulos_k_query K_CAPITULOS (some [("24-0001")]) = 625 ∧
    ¬ (search_capitulos_k_query K_CAPITULOS (some [("24-0001")]) = 6 * K_CAPITULOS) ∧
    search_extractos_k_query K_EXTRACTOS (some [("24-0001")]) = 1250 ∧
    ¬ (search_extractos_k_query K_EXTRACTOS (some [("24-0001")]) = 6 * K_EXTRACTOS) := by
  refine ⟨by decide, by decide, by decide, by decide⟩

/-- Claim C6, amended: under a non-empty expediente filter both retrieval
functions widen the candidate count to 25 times the normal cap, with a floor
of 200 candidates, and the filtered result list is truncated back to the
normal cap and contains only allowed expedientes. -/
theorem c6_widening_amended (k : Nat) (es : List String) (idx : List String)
    (h : es ≠ []) :
    search_capitulos_k_query k (some es) = max (k * 25) 200 ∧
    search_extractos_k_query k (some es) = max (k * 25) 200 ∧
    (search_capitulos_model idx k (some es)).length ≤ k ∧
    (∀ e ∈ search_capitulos_model idx k (some es), e ∈ es) := by
  obtain ⟨e0, es1, rfl⟩ := List.exists_cons_of_ne_nil h
  refine ⟨rfl, rfl, ?_, ?_⟩
  · unfold search_capitulos_model
    simp [List.length_take_le]
  · intro e he
    unfold search_capitulos_model at he
    have h1 := List.take_subset _ _ he
    rw [List.mem_filter] at h1
    simpa using h1.2

/-- Witness for C6 at the configured chapter cap and a two-candidate
index. -/
theorem c6_widening_amended_witness :
    ([("24-0001")] : List String) ≠ [] ∧
    (search_capitulos_model [("24-0001"), ("23-0110")] 25 (some [("24-0001")])).length ≤ 25 :=
  ⟨by decide,
    (c6_widening_amended 25 [("24-0001")] [("24-0001"), ("23-0110")] (by decide)).2.2.1⟩

/-- Claim C3: started on a fresh draft request, the planner node reaches the
ready outcome within at most three invocations for every sequence of model
verdicts, and once the round counter has reached the cap of two while a
draft is pending, the outcome is ready regardless of the model verdict. -/
theorem c3_ppt_planner_terminates (p1 p2 p3 p : PptPlan) (st : PptState) :
    (∃ n, firstReady freshPpt [p1, p2, p3] = some n ∧ n ≤ 3) ∧
    (2 ≤ st.ppt_rounds → st.ppt_pending = true →
      (ppt_plan_node st p).isReady = true) := by
  constructor
  · by_cases h2 : p2.need_clarification = true
    · by_cases h3 : p3.need_clarification = true
      · exact ⟨3, by simp [firstReady, ppt_plan_node, freshPpt, h2, h3], by norm_num⟩
      · exact ⟨3, by simp [firstReady, ppt_plan_node, freshPpt, h2, h3], by norm_num⟩
    · exact ⟨2, by simp [firstReady, ppt_plan_node, freshPpt, h2], by norm_num⟩
  · intro hr hp
    cases hn : p.need_clarification <;>
      simp [ppt_plan_node, hp, hr, hn, PptNodeResult.isReady]

/-- Witness for C3: a concrete three-plan run from the fresh state, and the
forced ready outcome at the capped pending state. -/
theorem c3_ppt_planner_terminates_witness :
    (∃ n, firstReady freshPpt
      [{ need_clarification := true, normalized_request := ("PPT 4x4"), questions := [] },
       { need_clarification := true, normalized_request := ("PPT 4x4"), questions := [] },
       { need_clarification := true, normalized_request := ("PPT 4x4"), questions := [] }] =
        some n ∧ n ≤ 3) ∧
    (ppt_plan_node { ppt_pending := true, ppt_request_base := ("PPT 4x4"), ppt_rounds := 2 }
      { need_clarification := true, normalized_request := ("PPT 4x4"), questions := [] }).isReady
      = true :=
  ⟨(c3_ppt_planner_terminates
      { need_clarification := true, normalized_request := ("PPT 4x4"), questions := [] }
      { need_clarification := true, normalized_request := ("PPT 4x4"), questions := [] }
      { need_clarification := true, normalized_request := ("PPT 4x4"), questions := [] }
      { need_clarification := true, normalized_request := ("PPT 4x4"), questions := [] }
      { ppt_pending := true, ppt_request_base := ("PPT 4x4"), ppt_rounds := 2 }).1,
   (c3_ppt_planner_terminates
      { need_clarification := true, normalized_request := ("PPT 4x4"), questions := [] }
      { need_clarification := true, normalized_request := ("PPT 4x4"), questions := [] }
      { need_clarification := true, normalized_request := ("PPT 4x4"), questions := [] }
      { need_clarification := true, normalized_request := ("PPT 4x4"), questions := [] }
      { ppt_pending := true, ppt_request_base := ("PPT 4x4"), ppt_rounds := 2 }).2
     (by decide) (by decide)⟩

/-- Counterexample to claim C5 as stated: on a fresh request whose model plan
says no clarification is needed, the planner still does not proceed to
drafting, because clarification is forced whenever no draft is pending. -/
theorem c5_fresh_request_counterexample :
    (ppt_plan_node freshPpt
      { need_clarification := false,
        normalized_request := ("Suministro de un vehículo 4x4"),
        questions := [] }).isReady = false := by
  decide

/-- Claim C5, amended: on entry with a fresh draft request the planner always
transitions to the clarification state, storing the normalized request,
emitting the model questions or the three defaults, and incrementing the
round counter, regardless of the model verdict; a no-clarification verdict
leads directly to drafting only when a draft is already pending. -/
theorem c5_fresh_request_amended (plan : PptPlan) (st : PptState) :
    (st.ppt_pending = false →
      ppt_plan_node st plan =
        PptNodeResult.clarify
          { ppt_pending := true, ppt_request_base := plan.normalized_request,
            ppt_rounds := st.ppt_rounds + 1 }
          (if plan.questions.isEmpty then ppt_default_questions else plan.questions)) ∧
    (st.ppt_pending = true → plan.need_clarification = false →
      ppt_plan_node st plan =
        PptNodeResult.ready
          { ppt_pending := false, ppt_request_base := (""), ppt_rounds := 0 }) := by
  constructor
  · intro h
    by_cases hc : 2 ≤ st.ppt_rounds ∧ plan.need_clarification = true <;>
      by_cases hq : plan.questions = [] <;>
        simp [ppt_plan_node, h, hc, hq]
  · intro hp hn
    simp [ppt_plan_node, hp, hn]

/-- Witness for C5: the fresh state with a no-clarification plan goes to the
clarification state with the default questions, and a pending state with a
no-clarification plan proceeds to drafting. -/
theorem c5_fresh_request_amended_witness :
    (freshPpt.ppt_pending = false ∧
      ppt_plan_node freshPpt
        { need_clarification := false,
          normalized_request := ("Suministro de un vehículo 4x4"), questions := [] } =
        PptNodeResult.clarify
          { ppt_pending := true,
            ppt_request_base := ("Suministro de un vehículo 4x4"), ppt_rounds := 1 }
          ppt_default_questions) ∧
    ppt_plan_node { ppt_pending := true, ppt_request_base := ("x"), ppt_rounds := 1 }
      { need_clarification := false, normalized_request := ("x"), questions := [] } =
      PptNodeResult.ready { ppt_pending := false, ppt_request_base := (""), ppt_rounds := 0 } :=
  ⟨⟨rfl, by
    have h := (c5_fresh_request_amended
      { need_clarification := false,
        normalized_request := ("Suministro de un vehículo 4x4"), questions := [] }
      freshPpt).1 (by decide)
    simpa using h⟩,
   (c5_fresh_request_amended
      { need_clarification := false, normalized_request := ("x"), questions := [] }
      { ppt_pending := true, ppt_request_base := ("x"), ppt_rounds := 1 }).2
     (by decide) (by decide)⟩

/-- Claim C7: for a non-empty answer, the suggestion gate of the
orchestration flow fires exactly when the turn was a retrieval or aggregation
turn and either the answer is substantial with at least one evidence item
used, or the turn was an aggregation turn, in which case it fires
unconditionally. -/
theorem c7_followup_gate_characterization {α β γ : Type} (intent_type : Option String)
    (answer : String) (contratos : List α) (capitulos : List β) (extractos : List γ)
    (h : answer ≠ ("")) :
    orchestrator_followup_gate intent_type answer contratos capitulos extractos = true ↔
      ((intent_type = some ("RAG_QA") ∨ intent_type = some ("CYPHER_QA")) ∧
        ((0 < contratos.length + capitulos.length + extractos.length ∧
            200 ≤ answer.length) ∨
          intent_type = some ("CYPHER_QA"))) := by
  have hie : answer.isEmpty = false :=
    Bool.eq_false_iff.mpr (fun hb => h ((String.isEmpty_iff answer).mp hb))
  unfold orchestrator_followup_gate should_generate_followups
  simp [Bool.and_eq_true, Bool.or_eq_true, decide_eq_true_eq, hie]
  try tauto

/-- Witness for C7: an aggregation turn with a short answer and no evidence
items still passes the gate. -/
theorem c7_followup_gate_witness :
    (("Hay 42 contratos en el grafo.") : String) ≠ ("") ∧
    orchestrator_followup_gate (some ("CYPHER_QA")) ("Hay 42 contratos en el grafo.")
      ([] : List String) ([] : List String) ([] : List String) = true :=
  ⟨by decide,
    (c7_followup_gate_characterization (some ("CYPHER_QA"))
        ("Hay 42 contratos en el grafo.") ([] : List String) ([] : List String)
        ([] : List String) (by decide)).mpr ⟨Or.inr rfl, Or.inr rfl⟩⟩

/-- Claim C9: with router memory remembering company focus and the company
Techfriendly, the utterance asking about Vodafone elliptically is classified
by the elliptical follow-up rule as a retrieval follow-up focused on the
company Vodafone, for any behaviour of the rest of the cascade; and the
elliptical rule can only fire when the remembered focus reads EMPRESA. -/
theorem c9_elliptical_followup_rule :
    (∀ (restResult : IntentResult),
      detect_intent ("y Vodafone?")
        { last_focus := some ("EMPRESA"), last_empresa_query := some ("Techfriendly") }
        restResult =
      (IntentRule.ySimple,
        { intent := ("RAG_QA"), doc_tipo := none, extracto_tipos := none,
          needs_aggregation := false, is_greeting := false, is_followup := true,
          focus := ("EMPRESA"), empresa_query := some ("Vodafone"),
          empresa_nif := none })) ∧
    (∀ (q : String) (ls : LastState) (restResult : IntentResult),
      (detect_intent q ls restResult).1 = IntentRule.ySimple →
        upperA (orEmpty ls.last_focus) = ("EMPRESA")) := by
  constructor
  · intro restResult
    rfl
  · intro q ls restResult h
    by_cases hfoc : upperA (orEmpty ls.last_focus) = ("EMPRESA")
    · exact hfoc
    · exfalso
      simp only [detect_intent, if_neg hfoc] at h
      split at h
      · simp at h
      · split at h
        · simp at h
        · split at h
          · simp at h
          · split at h
            · simp at h
            · simp at h

/-- Witness for C9: the scenario input itself fires the elliptical rule, so
the only-when-company part applies to it. -/
theorem c9_elliptical_followup_rule_witness :
    (detect_intent ("y Vodafone?")
      { last_focus := some ("EMPRESA"), last_empresa_query := some ("Techfriendly") }
      { intent := ("RAG_QA"), doc_tipo := none, extracto_tipos := none,
        needs_aggregation := false, is_greeting := false, is_followup := false,
        focus := ("CONTRATO"), empresa_query := none, empresa_nif := none }).1 =
      IntentRule.ySimple ∧
    upperA (orEmpty (some ("EMPRESA"))) = ("EMPRESA") :=
  ⟨by decide,
    c9_elliptical_followup_rule.2 ("y Vodafone?")
      { last_focus := some ("EMPRESA"), last_empresa_query := some ("Techfriendly") }
      { intent := ("RAG_QA"), doc_tipo := none, extracto_tipos := none,
        needs_aggregation := false, is_greeting := false, is_followup := false,
        focus := ("CONTRATO"), empresa_query := none, empresa_nif := none }
      (by decide)⟩

end XpiderHuelva
